import Mathlib

/-!
Verification of the simulator discovery, ranking, selection and lifecycle
subsystem of `apple/internal/templates/ios_sim.template.py`.

The Python source is shallowly embedded: pure functions become Lean
functions; every external `simctl`/`open`/`pkill` invocation is modelled by
an oracle (`World`) that fixes each command's outcome, and an effectful
function returns its result together with the list of commands it issued.
Python strings are Lean `String`s; the handful of Python string methods the
source uses (`split`, `casefold`, `rstrip`, `replace`, `startswith`, `in`,
`find`) are given explicit executable models below, faithful to Python's
behaviour on the inputs this program feeds them.
-/

/-- Model of Python `list.split(sep)` for a one-character separator, on the
character list of a string: splitting always yields at least one piece, and
an empty string yields `[[]]`, exactly as in Python. -/
def split_chars (sep : Char) : List Char → List (List Char)
  | [] => [[]]
  | c :: cs =>
    if c = sep then [] :: split_chars sep cs
    else
      match split_chars sep cs with
      | [] => [[c]]
      | h :: t => (c :: h) :: t

/-- Model of Python `s.split(sep)` for a one-character separator `sep`. -/
def py_split (s : String) (sep : Char) : List String :=
  (split_chars sep s.data).map String.mk

/-- Model of Python `needle in haystack` / `haystack.find(needle) != -1`:
substring containment. -/
def str_contains (needle haystack : String) : Bool :=
  (haystack.data.tails).any (fun t => needle.data.isPrefixOf t)

/-- Model of Python `s.casefold()` for the ASCII device names this program
compares: lower-casing each character. -/
def py_casefold (s : String) : String :=
  String.mk (s.data.map Char.toLower)

/-- Characters Python `str.rstrip()` removes by default. -/
def py_whitespace (c : Char) : Bool :=
  c = ' ' || c = '\n' || c = '\t' || c = '\r' || c = '\x0b' || c = '\x0c'

/-- Model of Python `s.rstrip()`: drop trailing whitespace. -/
def py_rstrip (s : String) : String :=
  String.mk ((s.data.reverse.dropWhile py_whitespace).reverse)

/-- Model of Python `s.replace(".", "-")`: the source only replaces a
one-character pattern by a one-character replacement. -/
def py_replace_dot_dash (s : String) : String :=
  String.mk (s.data.map (fun c => if c = '.' then '-' else c))

/-- Model of Python `s.startswith(p)`. -/
def str_starts_with (s p : String) : Bool :=
  p.data.isPrefixOf s.data

/-- Model of Python `s[n:]` on a string known to have at least `n`
characters (used to strip a leading marker). -/
def str_drop (s : String) (n : Nat) : String :=
  String.mk (s.data.drop n)

/-- Model of Python `int(component)` on the dot-split version components this
program passes it: it succeeds exactly on nonempty all-digit strings,
returning their base-10 value, and raises `ValueError` (here `none`)
otherwise. -/
def py_int? (s : String) : Option Nat :=
  if s.data ≠ [] ∧ s.data.all Char.isDigit then
    some (s.data.foldl (fun a c => a * 10 + (c.toNat - 48)) 0)
  else none

/-- Errors the embedded program can raise, mirroring the Python exceptions:
`valueError` for `int()` failures, `processError` for a `check=True`
subprocess exiting non-zero, `selectionError` for the "could not find or
create a simulator" exception (carrying the constraints interpolated into
its message), `bootTimeoutError` for the "Failed to launch simulator"
exception, and `consumerError` for an arbitrary failure raised by the
consumer of a context manager. -/
inductive Err where
  | valueError (component : String)
  | processError (cmd : String)
  | selectionError (minimum_os : String) (sim_device sim_os_version : Option String)
  | bootTimeoutError (udid : String)
  | consumerError
  deriving DecidableEq

/-- Embedding of line 168 of `minimum_os_to_simctl_runtime_version`: split
on ".", pad with `"0"` to at least three components, keep the first
three. -/
def version_components (minimum_os : String) : List String :=
  (py_split minimum_os '.' ++ ["0", "0", "0"]).take 3

/-- Embedding of `minimum_os_to_simctl_runtime_version` (ios_sim.template.py
lines 157-172): fold the (padded) first three dot-separated components into
an accumulator with `result = (result << 8) | int(component)`. An
unparseable component raises `ValueError`, which propagates. -/
def minimum_os_to_simctl_runtime_version (minimum_os : String) : Except Err Nat :=
  (version_components minimum_os).foldlM
    (fun result component =>
      match py_int? component with
      | some n => Except.ok ((result <<< 8) ||| n)
      | none => Except.error (Err.valueError component))
    0

/-- Decidable equality for `Except`, available so that concrete runs of the
embedded fallible functions can be settled by `decide`. -/
instance instDecEqExcept {ε α : Type} [DecidableEq ε] [DecidableEq α] :
    DecidableEq (Except ε α) := fun a b =>
  match a, b with
  | Except.ok x, Except.ok y =>
    if h : x = y then isTrue (by rw [h]) else isFalse (by intro hc; cases hc; exact h rfl)
  | Except.error x, Except.error y =>
    if h : x = y then isTrue (by rw [h]) else isFalse (by intro hc; cases hc; exact h rfl)
  | Except.ok _, Except.error _ => isFalse (by intro hc; cases hc)
  | Except.error _, Except.ok _ => isFalse (by intro hc; cases hc)

/-- Raw `devicetype` record from `simctl list -j`: the fields this program
reads. `productFamily` and `maxRuntimeVersion` may be absent (`None`), as
the source guards both with `.get`. -/
structure RawDeviceType where
  name : String
  identifier : String
  productFamily : Option String
  maxRuntimeVersion : Option Nat
  deriving DecidableEq

/-- Raw `runtime` record from `simctl list -j`: the fields this program
reads. -/
structure RawRuntime where
  identifier : String
  version : String
  isAvailable : Bool
  deriving DecidableEq

/-- Raw `device` record from `simctl list -j`: the fields this program's
logic reads (the `name` field is used only in `__repr__` and is omitted). -/
structure RawDevice where
  udid : String
  state : String
  deviceTypeIdentifier : String
  isAvailable : Bool
  deriving DecidableEq

/-- Parsed payload of `simctl list -j`: `devicetypes` and `runtimes` in
listing order, and `devices` as the mapping (in insertion order) from
runtime identifier to raw device records. -/
structure SimctlData where
  devicetypes : List RawDeviceType
  runtimes : List RawRuntime
  devices : List (String × List RawDevice)
  deriving DecidableEq

/-- Embedding of the `DeviceType` wrapper class (ios_sim.template.py lines
70-116): a raw record paired with its index in the `simctl list` output. -/
structure DeviceType where
  device_type : RawDeviceType
  simctl_list_index : Nat
  deriving DecidableEq

/-- Embedding of `DeviceType.has_product_family_or_identifier`: use
`productFamily` when present and truthy (Python treats the empty string as
falsy), otherwise fall back to a substring check against `identifier`. -/
def DeviceType.has_product_family_or_identifier (dt : DeviceType) (device_type : String) : Bool :=
  match dt.device_type.productFamily with
  | some pf => if pf ≠ "" then pf == device_type else str_contains device_type dt.device_type.identifier
  | none => str_contains device_type dt.device_type.identifier

/-- Embedding of `DeviceType.is_iphone`. -/
def DeviceType.is_iphone (dt : DeviceType) : Bool :=
  dt.has_product_family_or_identifier "iPhone"

/-- Embedding of `DeviceType.is_ipad`. -/
def DeviceType.is_ipad (dt : DeviceType) : Bool :=
  dt.has_product_family_or_identifier "iPad"

/-- Embedding of `DeviceType.__lt__` (lines 94-102): iPads sort ahead of
(less than) iPhones; within the same family, by `simctl list` index. -/
def DeviceType.lt (a other : DeviceType) : Bool :=
  if a.is_ipad && other.is_iphone then true
  else if a.is_iphone && other.is_ipad then false
  else decide (a.simctl_list_index < other.simctl_list_index)

/-- Embedding of the `Device` wrapper class (lines 119-154): a raw device
record paired with its resolved `DeviceType`. -/
structure Device where
  device : RawDevice
  device_type : DeviceType
  deriving DecidableEq

/-- Embedding of `Device.is_shutdown`. -/
def Device.is_shutdown (d : Device) : Bool :=
  d.device.state == "Shutdown"

/-- Embedding of `Device.is_booted`. -/
def Device.is_booted (d : Device) : Bool :=
  d.device.state == "Booted"

/-- Embedding of `Device.__lt__` (lines 148-154): shutdown devices sort
ahead of (less than) booted devices, otherwise delegate to the
`DeviceType` order. -/
def Device.lt (a other : Device) : Bool :=
  if a.is_shutdown && other.is_booted then true
  else if a.is_booted && other.is_shutdown then false
  else DeviceType.lt a.device_type other.device_type

/-- Stable insertion into a list sorted ascending by the strict comparison
`lt`: the new element goes after every element it is not strictly below. -/
def py_insert (lt : α → α → Bool) (x : α) : List α → List α
  | [] => [x]
  | y :: ys => if lt x y then x :: y :: ys else y :: py_insert lt x ys

/-- Model of Python `list.sort()`: a stable ascending sort driven by the
element type's `__lt__`. For the strict total orders this program sorts
with, any stable comparison sort computes the same list, so insertion sort
stands in for Timsort. -/
def py_sort (lt : α → α → Bool) (l : List α) : List α :=
  l.foldl (fun acc x => py_insert lt x acc) []

/-- Truthiness of the optional CLI string arguments: Python treats both
`None` and the empty string as false in `if sim_device and ...`. -/
def str_truthy : Option String → Bool
  | none => false
  | some s => s ≠ ""

/-- Embedding of the `maxRuntimeVersion` guard in the device-type loop
(lines 216-218): skip when the value is present, truthy (non-zero — Python
treats `0` as falsy) and below the requested minimum. -/
def max_runtime_version_rejects : Option Nat → Nat → Bool
  | none, _ => false
  | some v, minimum_runtime_version => decide (v ≠ 0) && decide (v < minimum_runtime_version)

/-- Embedding of the device-name guard in the device-type loop (lines
219-220): skip when a (truthy) name filter was supplied and the casefolded
device-type name does not contain it. `sim_device` is already casefolded
here, as in the source (line 206). -/
def sim_device_rejects (dt : DeviceType) : Option String → Bool
  | none => false
  | some s => (s ≠ "") && !(str_contains s (py_casefold dt.device_type.name))

/-- Embedding of the body of the device-type loop of
`discover_best_compatible_simulator` (lines 210-221): a device type is kept
iff it is an iPhone or iPad, survives the `maxRuntimeVersion` guard, and
survives the device-name guard. -/
def device_type_pass (dt : DeviceType) (minimum_runtime_version : Nat)
    (sim_device : Option String) : Bool :=
  if !(dt.is_iphone || dt.is_ipad) then false
  else if max_runtime_version_rejects dt.device_type.maxRuntimeVersion minimum_runtime_version then false
  else if sim_device_rejects dt sim_device then false
  else true

/-- Embedding of the runtime loop (lines 225-231): collect the identifiers
of the available runtimes, restricted to the exact `sim_os_version` when
that filter is truthy. -/
def compatible_runtime_identifiers (runtimes : List RawRuntime)
    (sim_os_version : Option String) : List String :=
  runtimes.filterMap (fun runtime =>
    if !runtime.isAvailable then none
    else if str_truthy sim_os_version && decide (some runtime.version ≠ sim_os_version) then none
    else some runtime.identifier)

/-- Embedding of the inner search of the device loop (lines 239-243): the
first device type in the (sorted) compatible list whose identifier matches
the device's `deviceTypeIdentifier`. -/
def resolve_device_type (compatible_device_types : List DeviceType)
    (device : RawDevice) : Option Device :=
  match compatible_device_types.find? (fun dt => device.deviceTypeIdentifier == dt.device_type.identifier) with
  | some dt => some { device := device, device_type := dt }
  | none => none

/-- Embedding of the pure part of `discover_best_compatible_simulator`
(lines 175-257), with the `simctl list -j` payload supplied as data (the
subprocess that obtains it is modelled in the effectful layer). Builds the
filtered, sorted device-type and device lists and returns the last element
of each (the ranked maximum), either of which may be absent. A ValueError
from version parsing propagates. -/
def discover_pure (data : SimctlData) (minimum_os : String)
    (sim_device sim_os_version : Option String) :
    Except Err (Option DeviceType × Option Device) := do
  let minimum_runtime_version ← minimum_os_to_simctl_runtime_version minimum_os
  let sim_device := sim_device.map py_casefold
  let compatible_device_types :=
    (data.devicetypes.enum).filterMap (fun p =>
      let dt : DeviceType := { device_type := p.2, simctl_list_index := p.1 }
      if device_type_pass dt minimum_runtime_version sim_device then some dt else none)
  let compatible_device_types := py_sort DeviceType.lt compatible_device_types
  let runtime_ids := compatible_runtime_identifiers data.runtimes sim_os_version
  let compatible_devices :=
    data.devices.foldl (fun acc p =>
      if !(runtime_ids.contains p.1) then acc
      else
        acc ++ p.2.filterMap (fun device =>
          if !device.isAvailable then none
          else resolve_device_type compatible_device_types device))
      []
  let compatible_devices := py_sort Device.lt compatible_devices
  return (compatible_device_types.getLast?, compatible_devices.getLast?)

/-- External commands the program can issue, in the order recorded in a
trace. `launch` carries the environment dictionary handed to
`subprocess.run(..., env=...)`. -/
inductive Cmd where
  | listJson
  | boot (udid : String)
  | create (name identifier : String)
  | createTemp (name device runtimeId : String)
  | pkill
  | shutdown (udid : String)
  | delete (udid : String)
  | listDevices
  | openSim (udid : String)
  | install (udid path : String)
  | launch (udid bundleId : String) (env : List (String × String))
  deriving DecidableEq

/-- Oracle fixing the outcome of every external command: `none` / `false`
is a non-zero exit, `some s` is a successful run with standard output `s`.
`listDevicesOut` is indexed by poll attempt so the listing may change
between polls. `environ` is the host process environment as an association
list in iteration order. -/
structure World where
  listJson : Option SimctlData
  bootOk : String → Bool
  createOut : String → String → Option String
  createTempOut : String → String → Option String
  shutdownOk : String → Bool
  deleteOk : String → Bool
  listDevicesOut : Nat → Option String
  openOk : Bool
  installOk : String → String → Bool
  environ : List (String × String)

/-- Embedding of `discover_best_compatible_simulator` (lines 175-257) with
its `simctl list -j` subprocess: a failed listing raises
`CalledProcessError`; otherwise the pure discovery runs on the payload. -/
def discover_best_compatible_simulator (w : World) (minimum_os : String)
    (sim_device sim_os_version : Option String) :
    Except Err (Option DeviceType × Option Device) × List Cmd :=
  match w.listJson with
  | none => (Except.error (Err.processError "simctl list -j"), [Cmd.listJson])
  | some data => (discover_pure data minimum_os sim_device sim_os_version, [Cmd.listJson])

/-- Embedding of `persistent_ios_simulator` (lines 260-304): if discovery
found a device, boot it when shut down (a failed boot raises) and return
its udid; else if it found a device type, create an instance from it and
return the rstripped stdout; else raise the "could not find or create"
exception carrying the three constraints. -/
def persistent_ios_simulator (w : World) (minimum_os : String)
    (sim_device sim_os_version : Option String) : Except Err String × List Cmd :=
  match discover_best_compatible_simulator w minimum_os sim_device sim_os_version with
  | (Except.error e, tr) => (Except.error e, tr)
  | (Except.ok (best_device_type, best_device), tr) =>
    match best_device with
    | some dev =>
      let udid := dev.device.udid
      if dev.is_shutdown then
        if w.bootOk udid then (Except.ok udid, tr ++ [Cmd.boot udid])
        else (Except.error (Err.processError "simctl boot"), tr ++ [Cmd.boot udid])
      else (Except.ok udid, tr)
    | none =>
      match best_device_type with
      | some dt =>
        match w.createOut dt.device_type.name dt.device_type.identifier with
        | some out =>
          (Except.ok (py_rstrip out), tr ++ [Cmd.create dt.device_type.name dt.device_type.identifier])
        | none =>
          (Except.error (Err.processError "simctl create"), tr ++ [Cmd.create dt.device_type.name dt.device_type.identifier])
      | none => (Except.error (Err.selectionError minimum_os sim_device sim_os_version), tr)

/-- One listing line satisfies the boot check of `wait_for_sim_to_boot`
(line 329): it contains both the udid and the text "Booted". -/
def booted_line (udid line : String) : Bool :=
  str_contains udid line && str_contains "Booted" line

/-- The polling loop of `wait_for_sim_to_boot` (lines 318-334), with the
attempt index `i` made explicit and the remaining attempts as fuel: each
attempt runs `simctl list devices` (`check=True`, so a failed listing
raises), succeeds if any output line passes `booted_line`, and otherwise
sleeps and retries. Out of fuel, it returns `false`. -/
def wait_poll (w : World) (udid : String) : Nat → Nat → Except Err Bool × List Cmd
  | _, 0 => (Except.ok false, [])
  | i, fuel + 1 =>
    match w.listDevicesOut i with
    | none => (Except.error (Err.processError "simctl list devices"), [Cmd.listDevices])
    | some out =>
      if (py_split out '\n').any (booted_line udid) then (Except.ok true, [Cmd.listDevices])
      else
        let r := wait_poll w udid (i + 1) fuel
        (r.1, Cmd.listDevices :: r.2)

/-- Embedding of `wait_for_sim_to_boot` (lines 307-335): up to 60 polling
attempts starting at attempt 0. -/
def wait_for_sim_to_boot (w : World) (udid : String) : Except Err Bool × List Cmd :=
  wait_poll w udid 0 60

/-- Embedding of `boot_simulator` (lines 338-367): launch Simulator.app via
`open` (`check=True`) and wait; a wait that returns `false` raises the
"Failed to launch simulator with UDID" exception. -/
def boot_simulator (w : World) (udid : String) : Except Err Unit × List Cmd :=
  if w.openOk then
    match wait_for_sim_to_boot w udid with
    | (Except.ok true, tr) => (Except.ok (), Cmd.openSim udid :: tr)
    | (Except.ok false, tr) => (Except.error (Err.bootTimeoutError udid), Cmd.openSim udid :: tr)
    | (Except.error e, tr) => (Except.error e, Cmd.openSim udid :: tr)
  else (Except.error (Err.processError "open"), [Cmd.openSim udid])

/-- Embedding of the `temporary_ios_simulator` context manager (lines
370-404), with the consumer of the `with` block passed explicitly as
`body` (returning its outcome and issued commands). Create runs with
`check=True`; on success the yielded udid is the rstripped stdout, `pkill`
is best-effort, and the `finally` block always issues `shutdown`
(`check=False`, failures suppressed — the oracle's `shutdownOk` is never
consulted) then `delete` (`check=True`), whose failure replaces the body's
outcome. -/
def temporary_ios_simulator (w : World) (device version : String)
    (body : String → Except Err Unit × List Cmd) : Except Err Unit × List Cmd :=
  let runtime_id := "com.apple.CoreSimulator.SimRuntime.iOS-" ++ py_replace_dot_dash version
  match w.createTempOut device runtime_id with
  | none => (Except.error (Err.processError "simctl create"), [Cmd.createTemp "TestDevice" device runtime_id])
  | some out =>
    let udid := py_rstrip out
    let b := body udid
    let result := if w.deleteOk udid then b.1 else Except.error (Err.processError "simctl delete")
    (result, Cmd.createTemp "TestDevice" device runtime_id :: Cmd.pkill :: b.2 ++ [Cmd.shutdown udid, Cmd.delete udid])

/-- Model of Python `dict` assignment `d[k] = v` on an association list
whose keys are distinct (as a Python dict's always are): replace the entry
with key `k` in place if present, otherwise append the new entry. -/
def dict_set (d : List (String × String)) (k v : String) : List (String × String) :=
  if d.any (fun p => p.1 == k) then d.map (fun p => if p.1 == k then (k, v) else p)
  else d ++ [(k, v)]

/-- Embedding of `simctl_launch_environ` (lines 446-463): keep the host
variables whose names start with "IOS_", rewriting that leading marker to
"SIMCTL_CHILD_" (the source's `k.replace("IOS_", "SIMCTL_CHILD_", 1)`
replaces the first occurrence, which for these keys is the leading one);
then, when `IDE_DISABLED_OS_ACTIVITY_DT_MODE` is not set in the host
environment, set `SIMCTL_CHILD_OS_ACTIVITY_DT_MODE` to "enable". -/
def simctl_launch_environ (environ : List (String × String)) : List (String × String) :=
  let result := environ.filterMap (fun p =>
    if str_starts_with p.1 "IOS_" then some ("SIMCTL_CHILD_" ++ str_drop p.1 4, p.2) else none)
  if environ.any (fun p => p.1 == "IDE_DISABLED_OS_ACTIVITY_DT_MODE") then result
  else dict_set result "SIMCTL_CHILD_OS_ACTIVITY_DT_MODE" "enable"

/-- Embedding of the `ios_simulator` context manager (lines 466-487): it
yields the result of `persistent_ios_simulator` to its consumer,
unconditionally — the branch that would select `temporary_ios_simulator`
when both filters are set is commented out in the source. -/
def ios_simulator (w : World) (minimum_os : String)
    (sim_device sim_os_version : Option String)
    (body : String → Except Err Unit × List Cmd) : Except Err Unit × List Cmd :=
  match persistent_ios_simulator w minimum_os sim_device sim_os_version with
  | (Except.error e, tr) => (Except.error e, tr)
  | (Except.ok udid, tr) =>
    let b := body udid
    (b.1, tr ++ b.2)

/-- Embedding of `run_app_in_simulator` (lines 490-512), with the app
extraction and Info.plist lookup (external file-system collaborators)
supplied as the `app_path` and `app_bundle_id` parameters: boot, install
(`check=True`), then launch with `check=False` (the app's own exit code is
tolerated) and with the environment produced by `simctl_launch_environ`. -/
def run_app_in_simulator (w : World) (simulator_udid app_path app_bundle_id : String) :
    Except Err Unit × List Cmd :=
  match boot_simulator w simulator_udid with
  | (Except.error e, tr) => (Except.error e, tr)
  | (Except.ok _, tr) =>
    if w.installOk simulator_udid app_path then
      (Except.ok (),
        tr ++ [Cmd.install simulator_udid app_path,
               Cmd.launch simulator_udid app_bundle_id (simctl_launch_environ w.environ)])
    else (Except.error (Err.processError "simctl install"), tr ++ [Cmd.install simulator_udid app_path])

/-- The version string `s` decomposes (after padding and truncation, exactly
as the source does it) into three components parsing to the given
(major, minor, micro) tuple. -/
def parses_to (s : String) (t : Nat × Nat × Nat) : Prop :=
  (version_components s).map py_int? = [some t.1, some t.2.1, some t.2.2]

instance (s : String) (t : Nat × Nat × Nat) : Decidable (parses_to s t) := by
  unfold parses_to; infer_instance

/-- Lexicographic order on (major, minor, micro) tuples, as the spec's
"component tuples compare lexicographically". -/
def version_lex (a b : Nat × Nat × Nat) : Prop :=
  a.1 < b.1 ∨ (a.1 = b.1 ∧ (a.2.1 < b.2.1 ∨ (a.2.1 = b.2.1 ∧ a.2.2 < b.2.2)))

instance (a b : Nat × Nat × Nat) : Decidable (version_lex a b) := by
  unfold version_lex; infer_instance

/-- Modelled from the claim's words, for comparison with the source: mask
each component to the range [0,255] and pack most-significant-first,
`(major << 16) | (minor << 8) | micro`. -/
def spec_masked_pack (major minor micro : Nat) : Nat :=
  ((major &&& 255) <<< 16) ||| ((minor &&& 255) <<< 8) ||| (micro &&& 255)

/-- Modelled from the claim's words, for comparison with the source: keep a
device type (with respect to the minimum-OS constraint) iff its
`maxRuntimeVersion` is absent or at least the encoded requested minimum. -/
def spec_min_os_compatible : Option Nat → Nat → Prop
  | none, _ => True
  | some v, minimum_runtime_version => minimum_runtime_version ≤ v

instance (mrv : Option Nat) (m : Nat) : Decidable (spec_min_os_compatible mrv m) := by
  cases mrv <;> unfold spec_min_os_compatible <;> infer_instance

/-- The entry (key, val) is a translation of some host environment variable
under the source marker "IOS_" to the destination marker "SIMCTL_CHILD_". -/
def translated_entry (environ : List (String × String)) (key val : String) : Prop :=
  ∃ k, (k, val) ∈ environ ∧ str_starts_with k "IOS_" = true ∧
    key = "SIMCTL_CHILD_" ++ str_drop k 4

/-- Modelled from the claim's words, for comparison with the source: the
result consists exactly of the translated "IOS_" host variables, with no
other entries. -/
def spec_environ_exact (environ result : List (String × String)) : Prop :=
  ∀ key val, ((key, val) ∈ result ↔ translated_entry environ key val)

/-- Key helper: bitwise-or of a left-shifted value with a small value is
plain addition. -/
theorem shiftLeft_lor_of_lt {a b n : Nat} (h : b < 2 ^ n) :
    (a <<< n) ||| b = 2 ^ n * a + b := by
  apply Nat.eq_of_testBit_eq
  intro j
  rw [Nat.testBit_lor, Nat.testBit_shiftLeft, Nat.testBit_mul_pow_two_add a h j]
  by_cases hj : j < n
  · simp [hj, Nat.not_le.mpr hj]
  · have hb : b.testBit j = false := by
      apply Nat.testBit_lt_two_pow
      calc b < 2 ^ n := h
        _ ≤ 2 ^ j := Nat.pow_le_pow_right (by norm_num) (Nat.le_of_not_lt hj)
    simp [hj, Nat.le_of_not_lt hj, hb]

/-- The source's accumulator fold, written out on a parsed component
triple. -/
theorem encode_of_parses_to {s : String} {x y z : Nat} (h : parses_to s (x, y, z)) :
    minimum_os_to_simctl_runtime_version s =
      Except.ok ((((0 <<< 8) ||| x) <<< 8 ||| y) <<< 8 ||| z) := by
  unfold parses_to at h
  unfold minimum_os_to_simctl_runtime_version
  rcases hvc : version_components s with _ | ⟨c1, _ | ⟨c2, _ | ⟨c3, rest⟩⟩⟩ <;>
    rw [hvc] at h <;> simp at h
  obtain ⟨h1, h2, h3, h4⟩ := h
  subst h4
  simp [List.foldlM, h1, h2, h3, Except.bind]
  rfl

/-- The source's fold, for in-range components, equals base-256 positional
value. -/
theorem encode_value {x y z : Nat} (hy : y ≤ 255) (hz : z ≤ 255) :
    (((0 <<< 8) ||| x) <<< 8 ||| y) <<< 8 ||| z = 65536 * x + 256 * y + z := by
  have h1 : (0 <<< 8) ||| x = x := by
    rw [Nat.zero_shiftLeft, Nat.zero_or]
  rw [h1, shiftLeft_lor_of_lt (show y < 2 ^ 8 by omega),
    shiftLeft_lor_of_lt (show z < 2 ^ 8 by omega)]
  ring

/-- The claim's packed form, for in-range components, equals the same
base-256 positional value. -/
theorem packed_value {x y z : Nat} (hy : y ≤ 255) (hz : z ≤ 255) :
    (x <<< 16) ||| (y <<< 8) ||| z = 65536 * x + 256 * y + z := by
  have h8 : y <<< 8 = 256 * y := by rw [Nat.shiftLeft_eq]; ring
  have h1 : (x <<< 16) ||| (y <<< 8) = 65536 * x + 256 * y := by
    rw [h8, shiftLeft_lor_of_lt (show 256 * y < 2 ^ 16 by omega)]
    norm_num
  have h2 : 65536 * x + 256 * y = (256 * x + y) <<< 8 := by
    rw [Nat.shiftLeft_eq]; ring
  rw [h1, h2, shiftLeft_lor_of_lt (show z < 2 ^ 8 by omega), ← h2]
  ring

/-- C1 (counterexample): the claim quantifies over all non-negative integer
components, but for components above 255 the encoding is not ordered
lexicographically: "0.1.0" encodes to 256 and "0.0.300" to 300, so
VersionKey("0.1.0") < VersionKey("0.0.300") although (0,1,0) > (0,0,300)
lexicographically. -/
theorem C1_counterexample :
    parses_to "0.1.0" (0, 1, 0) ∧ parses_to "0.0.300" (0, 0, 300) ∧
    minimum_os_to_simctl_runtime_version "0.1.0" = Except.ok 256 ∧
    minimum_os_to_simctl_runtime_version "0.0.300" = Except.ok 300 ∧
    256 < 300 ∧ ¬ version_lex (0, 1, 0) (0, 0, 300) := by
  decide

/-- C1 (amended: components restricted to the range [0,255]): for version
strings of up to three dot-separated components, each at most 255 (missing
trailing components defaulting to 0), VersionKey(a) < VersionKey(b) iff the
(major, minor, micro) tuples compare lexicographically; and
VersionKey("13.2") = VersionKey("13.2.0"). -/
theorem C1_version_key_order :
    (∀ (a b : String) (a1 a2 a3 b1 b2 b3 : Nat),
      parses_to a (a1, a2, a3) → parses_to b (b1, b2, b3) →
      a1 ≤ 255 → a2 ≤ 255 → a3 ≤ 255 → b1 ≤ 255 → b2 ≤ 255 → b3 ≤ 255 →
      ∃ ka kb, minimum_os_to_simctl_runtime_version a = Except.ok ka ∧
        minimum_os_to_simctl_runtime_version b = Except.ok kb ∧
        (ka < kb ↔ version_lex (a1, a2, a3) (b1, b2, b3))) ∧
    minimum_os_to_simctl_runtime_version "13.2" =
      minimum_os_to_simctl_runtime_version "13.2.0" := by
  constructor
  · intro a b a1 a2 a3 b1 b2 b3 ha hb ha1 ha2 ha3 hb1 hb2 hb3
    refine ⟨_, _, encode_of_parses_to ha, encode_of_parses_to hb, ?_⟩
    rw [encode_value ha2 ha3, encode_value hb2 hb3]
    unfold version_lex
    simp only []
    omega
  · decide

/-- C1 witness: the amended ordering theorem applied at "12.4.1" and
"12.10". -/
theorem C1_version_key_order_witness :
    ∃ ka kb, minimum_os_to_simctl_runtime_version "12.4.1" = Except.ok ka ∧
      minimum_os_to_simctl_runtime_version "12.10" = Except.ok kb ∧
      (ka < kb ↔ version_lex (12, 4, 1) (12, 10, 0)) :=
  C1_version_key_order.1 "12.4.1" "12.10" 12 4 1 12 10 0
    (by decide) (by decide) (by decide) (by decide) (by decide)
    (by decide) (by decide) (by decide)

/-- C2 (counterexample): the source does not mask components to [0,255]; it
ors each component into the shifted accumulator. On "1.0.256" the code
produces 65792, while masking each component and packing as
(major << 16) | (minor << 8) | micro gives 65536. -/
theorem C2_counterexample :
    parses_to "1.0.256" (1, 0, 256) ∧
    minimum_os_to_simctl_runtime_version "1.0.256" = Except.ok 65792 ∧
    spec_masked_pack 1 0 256 = 65536 ∧ (65792 : Nat) ≠ 65536 := by
  decide

/-- First component of the (padded, truncated) split whose parse fails:
exactly the component whose `int()` raises in the source's fold. -/
def first_bad_component (s : String) : Option String :=
  (version_components s).find? (fun c => (py_int? c).isNone)

/-- The source always pads and truncates to exactly three components:
Python `str.split` yields at least one piece, so after appending three
"0" pieces and taking three, the component list has length three. -/
theorem split_chars_ne_nil (sep : Char) (l : List Char) : split_chars sep l ≠ [] := by
  induction l with
  | nil => simp [split_chars]
  | cons c cs ih =>
    unfold split_chars
    by_cases h : c = sep
    · simp [h]
    · simp only [if_neg h]
      cases hs : split_chars sep cs with
      | nil => simp
      | cons a t => simp

theorem version_components_three (s : String) :
    ∃ c1 c2 c3, version_components s = [c1, c2, c3] := by
  unfold version_components py_split
  cases hs : split_chars '.' s.data with
  | nil => exact absurd hs (split_chars_ne_nil '.' s.data)
  | cons a t =>
    cases t with
    | nil => exact ⟨String.mk a, "0", "0", rfl⟩
    | cons b t2 =>
      cases t2 with
      | nil => exact ⟨String.mk a, String.mk b, "0", rfl⟩
      | cons c t3 => exact ⟨String.mk a, String.mk b, String.mk c, rfl⟩

/-- A failing component makes the source's fold raise `ValueError` on the
first such component. -/
theorem encode_error_of_first_bad {s c : String}
    (hc : first_bad_component s = some c) :
    minimum_os_to_simctl_runtime_version s = Except.error (Err.valueError c) := by
  obtain ⟨c1, c2, c3, hvc⟩ := version_components_three s
  unfold first_bad_component at hc
  rw [hvc] at hc
  unfold minimum_os_to_simctl_runtime_version
  rw [hvc]
  cases h1 : py_int? c1 with
  | none =>
    simp [List.find?, h1, Option.isNone] at hc
    subst hc
    simp only [List.foldlM, h1]
    rfl
  | some n1 =>
    cases h2 : py_int? c2 with
    | none =>
      simp [List.find?, h1, h2, Option.isNone] at hc
      subst hc
      simp only [List.foldlM, h1, h2]
      rfl
    | some n2 =>
      cases h3 : py_int? c3 with
      | none =>
        simp [List.find?, h1, h2, h3, Option.isNone] at hc
        subst hc
        simp only [List.foldlM, h1, h2, h3]
        rfl
      | some n3 =>
        simp [List.find?, h1, h2, h3, Option.isNone] at hc

/-- C2 (amended: the components are or-ed into the shifted accumulator
without masking, which for components in [0,255] equals the packed value
(major << 16) | (minor << 8) | micro): the encoding takes the first three
dot-separated components, padding with "0"; for in-range components it
returns the 24-bit packed value, and a non-numeric component raises a
format error that propagates unrecovered through discovery to the caller of
`persistent_ios_simulator`. -/
theorem C2_encoding :
    (∀ (s : String) (x y z : Nat), parses_to s (x, y, z) →
      x ≤ 255 → y ≤ 255 → z ≤ 255 →
      minimum_os_to_simctl_runtime_version s =
        Except.ok ((x <<< 16) ||| (y <<< 8) ||| z)) ∧
    (∀ (s c : String), first_bad_component s = some c →
      minimum_os_to_simctl_runtime_version s = Except.error (Err.valueError c) ∧
      ∀ (w : World) (data : SimctlData) (sd sv : Option String),
        w.listJson = some data →
        persistent_ios_simulator w s sd sv =
          (Except.error (Err.valueError c), [Cmd.listJson])) := by
  constructor
  · intro s x y z h hx hy hz
    rw [encode_of_parses_to h, encode_value hy hz, packed_value hy hz]
  · intro s c hc
    have henc := encode_error_of_first_bad hc
    refine ⟨henc, ?_⟩
    intro w data sd sv hw
    unfold persistent_ios_simulator discover_best_compatible_simulator
    rw [hw]
    unfold discover_pure
    rw [henc]
    rfl

/-- C2 witness: the amended encoding theorem applied at "13.2.3" (packing)
and at "12.beta" (error propagation through a concrete world). -/
theorem C2_encoding_witness :
    minimum_os_to_simctl_runtime_version "13.2.3" =
      Except.ok ((13 <<< 16) ||| (2 <<< 8) ||| 3) ∧
    (minimum_os_to_simctl_runtime_version "12.beta" =
        Except.error (Err.valueError "beta") ∧
      ∀ (w : World) (data : SimctlData) (sd sv : Option String),
        w.listJson = some data →
        persistent_ios_simulator w "12.beta" sd sv =
          (Except.error (Err.valueError "beta"), [Cmd.listJson])) :=
  ⟨C2_encoding.1 "13.2.3" 13 2 3 (by decide) (by decide) (by decide) (by decide),
   C2_encoding.2 "12.beta" "beta" (by decide)⟩

/-- A device whose state is "Booted" is not in state "Shutdown". -/
theorem booted_not_shutdown {d : Device} (h : d.is_booted = true) :
    d.is_shutdown = false := by
  have hs : d.device.state = "Booted" := eq_of_beq h
  simp [Device.is_shutdown, hs]

/-- A device whose state is "Shutdown" is not in state "Booted". -/
theorem shutdown_not_booted {d : Device} (h : d.is_shutdown = true) :
    d.is_booted = false := by
  have hs : d.device.state = "Shutdown" := eq_of_beq h
  simp [Device.is_booted, hs]

/-- Concrete device types for the ranking example: an iPad at catalog index
0, an iPhone at index 1, an iPad at index 2. -/
def ipad_dt_0 : DeviceType :=
  ⟨⟨"iPad (5th generation)", "com.apple.CoreSimulator.SimDeviceType.iPad--5th-generation-", some "iPad", none⟩, 0⟩

def iphone_dt_1 : DeviceType :=
  ⟨⟨"iPhone 11", "com.apple.CoreSimulator.SimDeviceType.iPhone-11", some "iPhone", none⟩, 1⟩

def ipad_dt_2 : DeviceType :=
  ⟨⟨"iPad Pro (11-inch)", "com.apple.CoreSimulator.SimDeviceType.iPad-Pro--11-inch-", some "iPad", none⟩, 2⟩

/-- Catalog holding exactly the three example device types, in that order. -/
def example_catalog : SimctlData :=
  ⟨[ipad_dt_0.device_type, iphone_dt_1.device_type, ipad_dt_2.device_type], [], []⟩

/-- C6: an iPad ranks strictly below an iPhone regardless of catalog index;
two device types in the same family tier compare by catalog index
ascending; and selection (the ranked maximum of the sorted compatible
list) picks iPhone@index1 from [iPad@index0, iPhone@index1, iPad@index2]. -/
theorem C6_device_type_ranking :
    (∀ a b : DeviceType, a.is_ipad = true → b.is_iphone = true → b.is_ipad = false →
      DeviceType.lt a b = true ∧ DeviceType.lt b a = false) ∧
    (∀ a b : DeviceType, a.is_iphone = true → a.is_ipad = false →
      b.is_iphone = true → b.is_ipad = false →
      DeviceType.lt a b = decide (a.simctl_list_index < b.simctl_list_index)) ∧
    (∀ a b : DeviceType, a.is_ipad = true → a.is_iphone = false →
      b.is_ipad = true → b.is_iphone = false →
      DeviceType.lt a b = decide (a.simctl_list_index < b.simctl_list_index)) ∧
    discover_pure example_catalog "13.0" none none =
      Except.ok (some iphone_dt_1, none) := by
  refine ⟨?_, ?_, ?_, by decide⟩
  · intro a b ha hb hbp
    constructor
    · simp [DeviceType.lt, ha, hb]
    · simp [DeviceType.lt, ha, hb, hbp]
  · intro a b ha hap hb hbp
    simp [DeviceType.lt, ha, hap, hb, hbp]
  · intro a b ha hap hb hbp
    simp [DeviceType.lt, ha, hap, hb, hbp]

/-- C6 witness: the ranking clauses applied to the concrete example device
types. -/
theorem C6_device_type_ranking_witness :
    (DeviceType.lt ipad_dt_0 iphone_dt_1 = true ∧
      DeviceType.lt iphone_dt_1 ipad_dt_0 = false) ∧
    DeviceType.lt ipad_dt_0 ipad_dt_2 =
      decide (ipad_dt_0.simctl_list_index < ipad_dt_2.simctl_list_index) :=
  ⟨C6_device_type_ranking.1 ipad_dt_0 iphone_dt_1 (by decide) (by decide) (by decide),
   C6_device_type_ranking.2.2.1 ipad_dt_0 ipad_dt_2 (by decide) (by decide) (by decide) (by decide)⟩

/-- C7: a Booted instance ranks above every Shutdown instance regardless of
the device types involved, and two instances in the same boot state compare
by the DeviceType ordering of their resolved device types. -/
theorem C7_instance_ranking :
    (∀ s b : Device, s.is_shutdown = true → b.is_booted = true →
      Device.lt s b = true ∧ Device.lt b s = false) ∧
    (∀ a b : Device, a.is_booted = true → b.is_booted = true →
      Device.lt a b = DeviceType.lt a.device_type b.device_type) ∧
    (∀ a b : Device, a.is_shutdown = true → b.is_shutdown = true →
      Device.lt a b = DeviceType.lt a.device_type b.device_type) := by
  refine ⟨?_, ?_, ?_⟩
  · intro s b hs hb
    constructor
    · simp [Device.lt, hs, hb]
    · simp [Device.lt, hs, hb, booted_not_shutdown hb]
  · intro a b ha hb
    simp [Device.lt, booted_not_shutdown ha, booted_not_shutdown hb]
  · intro a b ha hb
    simp [Device.lt, ha, hb, shutdown_not_booted ha, shutdown_not_booted hb]

/-- Concrete devices for the C7 witness: a Shutdown instance on the newest
iPad versus a Booted instance on the older iPad. -/
def shut_device : Device :=
  ⟨⟨"11111111-2222-3333-4444-555555555555", "Shutdown", ipad_dt_2.device_type.identifier, true⟩, ipad_dt_2⟩

def booted_device : Device :=
  ⟨⟨"66666666-7777-8888-9999-000000000000", "Booted", ipad_dt_0.device_type.identifier, true⟩, ipad_dt_0⟩

/-- C7 witness: the instance-ranking clauses applied to the concrete
devices — the Shutdown instance on the preferred device type still ranks
below the Booted one. -/
theorem C7_instance_ranking_witness :
    (Device.lt shut_device booted_device = true ∧
      Device.lt booted_device shut_device = false) ∧
    Device.lt booted_device booted_device =
      DeviceType.lt booted_device.device_type booted_device.device_type :=
  ⟨C7_instance_ranking.1 shut_device booted_device (by decide) (by decide),
   C7_instance_ranking.2.1 booted_device booted_device (by decide) (by decide)⟩

/-- C8 (counterexample): the source's guard `if max_runtime_version and
max_runtime_version < minimum_runtime_version` treats a present
`maxRuntimeVersion` of 0 as falsy, so such a device type is kept even
though 0 is below the encoded minimum 851968 for "13.0" — the claimed
"absent or at least the minimum" equivalence fails at 0. -/
theorem C8_counterexample :
    minimum_os_to_simctl_runtime_version "13.0" = Except.ok 851968 ∧
    max_runtime_version_rejects (some 0) 851968 = false ∧
    device_type_pass
      ⟨⟨"iPhone 8", "com.apple.CoreSimulator.SimDeviceType.iPhone-8", some "iPhone", some 0⟩, 0⟩
      851968 none = true ∧
    ¬ spec_min_os_compatible (some 0) 851968 := by
  decide

/-- C8 (amended: a device type is kept, with respect to the minimum-OS
constraint, iff its maxRuntimeVersion is absent, or equal to 0 (Python
truthiness), or at least the encoded requested minimum): with the
characterization tied to the device-type pass, plus the claim's concrete
cases — "12.0.0" excluded at minimum "13.0", kept at "11.0", absent kept
always. -/
theorem C8_min_os_filter :
    (∀ (mrv : Option Nat) (m : Nat),
      max_runtime_version_rejects mrv m = false ↔
        (mrv = none ∨ mrv = some 0 ∨ ∃ v, mrv = some v ∧ m ≤ v)) ∧
    (∀ (dt : DeviceType) (m : Nat) (sd : Option String),
      device_type_pass dt m sd = true →
      max_runtime_version_rejects dt.device_type.maxRuntimeVersion m = false) ∧
    (∀ (dt : DeviceType) (m : Nat),
      (dt.is_iphone || dt.is_ipad) = true →
      device_type_pass dt m none =
        ! max_runtime_version_rejects dt.device_type.maxRuntimeVersion m) ∧
    (∀ m : Nat, max_runtime_version_rejects none m = false) ∧
    minimum_os_to_simctl_runtime_version "12.0.0" = Except.ok 786432 ∧
    minimum_os_to_simctl_runtime_version "11.0" = Except.ok 720896 ∧
    max_runtime_version_rejects (some 786432) 851968 = true ∧
    max_runtime_version_rejects (some 786432) 720896 = false := by
  refine ⟨?_, ?_, ?_, by intro m; rfl, by decide, by decide, by decide, by decide⟩
  · intro mrv m
    cases mrv with
    | none => simp [max_runtime_version_rejects]
    | some v =>
      simp [max_runtime_version_rejects]
      omega
  · intro dt m sd hpass
    by_cases h1 : (dt.is_iphone || dt.is_ipad) = true
    · by_cases h2 : max_runtime_version_rejects dt.device_type.maxRuntimeVersion m = true
      · simp [device_type_pass, h1, h2] at hpass
      · simpa using h2
    · have h1' : (dt.is_iphone || dt.is_ipad) = false := by
        cases h : (dt.is_iphone || dt.is_ipad) <;> simp_all
      simp [device_type_pass, h1'] at hpass
  · intro dt m h1
    cases h2 : max_runtime_version_rejects dt.device_type.maxRuntimeVersion m <;>
      simp [device_type_pass, h1, h2, sim_device_rejects]

/-- C8 witness: the pass-to-guard clauses applied at a concrete in-range
device type. -/
theorem C8_min_os_filter_witness :
    max_runtime_version_rejects
      (DeviceType.mk ⟨"iPhone 8", "com.apple.CoreSimulator.SimDeviceType.iPhone-8", some "iPhone", some 900000⟩ 0).device_type.maxRuntimeVersion
      851968 = false ∧
    device_type_pass
      (DeviceType.mk ⟨"iPhone 8", "com.apple.CoreSimulator.SimDeviceType.iPhone-8", some "iPhone", some 900000⟩ 0)
      851968 none =
      ! max_runtime_version_rejects
        (DeviceType.mk ⟨"iPhone 8", "com.apple.CoreSimulator.SimDeviceType.iPhone-8", some "iPhone", some 900000⟩ 0).device_type.maxRuntimeVersion
        851968 :=
  ⟨C8_min_os_filter.2.1 _ 851968 none (by decide),
   C8_min_os_filter.2.2.1 _ 851968 (by decide)⟩

/-- C5: persistent-mode acquisition: a selected Shutdown instance gets
exactly one boot command and its udid returned; an already-Booted instance
gets no boot command; a device type without an instance gets one create
command (with its name and identifier) and the whitespace-trimmed stdout is
returned; with neither, the failure carries the minimum OS and both
filters. -/
theorem C5_persistent_acquisition :
    ∀ (w : World) (data : SimctlData) (minimum_os : String) (sd sv : Option String),
    w.listJson = some data →
    (∀ dto dev, discover_pure data minimum_os sd sv = Except.ok (dto, some dev) →
      dev.is_shutdown = true → w.bootOk dev.device.udid = true →
      persistent_ios_simulator w minimum_os sd sv =
        (Except.ok dev.device.udid, [Cmd.listJson, Cmd.boot dev.device.udid])) ∧
    (∀ dto dev, discover_pure data minimum_os sd sv = Except.ok (dto, some dev) →
      dev.is_booted = true →
      persistent_ios_simulator w minimum_os sd sv =
        (Except.ok dev.device.udid, [Cmd.listJson])) ∧
    (∀ dt out, discover_pure data minimum_os sd sv = Except.ok (some dt, none) →
      w.createOut dt.device_type.name dt.device_type.identifier = some out →
      persistent_ios_simulator w minimum_os sd sv =
        (Except.ok (py_rstrip out),
          [Cmd.listJson, Cmd.create dt.device_type.name dt.device_type.identifier])) ∧
    (discover_pure data minimum_os sd sv = Except.ok (none, none) →
      persistent_ios_simulator w minimum_os sd sv =
        (Except.error (Err.selectionError minimum_os sd sv), [Cmd.listJson])) := by
  intro w data minimum_os sd sv hw
  refine ⟨?_, ?_, ?_, ?_⟩
  · intro dto dev hdisc hshut hboot
    simp [persistent_ios_simulator, discover_best_compatible_simulator, hw, hdisc, hshut, hboot]
  · intro dto dev hdisc hbooted
    simp [persistent_ios_simulator, discover_best_compatible_simulator, hw, hdisc,
      booted_not_shutdown hbooted]
  · intro dt out hdisc hcr
    simp [persistent_ios_simulator, discover_best_compatible_simulator, hw, hdisc, hcr]
  · intro hdisc
    simp [persistent_ios_simulator, discover_best_compatible_simulator, hw, hdisc]

/-- A runtime and devices used by the C5 witness worlds. -/
def ios13_runtime : RawRuntime :=
  ⟨"com.apple.CoreSimulator.SimRuntime.iOS-13-0", "13.0", true⟩

def shut_raw_device : RawDevice :=
  ⟨"AAAA-SHUT", "Shutdown", iphone_dt_1.device_type.identifier, true⟩

def booted_raw_device : RawDevice :=
  ⟨"BBBB-BOOT", "Booted", iphone_dt_1.device_type.identifier, true⟩

/-- Catalog with one iPhone device type (at index 0) and one Shutdown
instance of it. -/
def catalog_shut : SimctlData :=
  ⟨[iphone_dt_1.device_type], [ios13_runtime],
    [(ios13_runtime.identifier, [shut_raw_device])]⟩

/-- Catalog with one iPhone device type and one Booted instance of it. -/
def catalog_booted : SimctlData :=
  ⟨[iphone_dt_1.device_type], [ios13_runtime],
    [(ios13_runtime.identifier, [booted_raw_device])]⟩

/-- Catalog with one iPhone device type and no instances. -/
def catalog_no_devices : SimctlData :=
  ⟨[iphone_dt_1.device_type], [ios13_runtime], []⟩

/-- Catalog with nothing compatible at all. -/
def catalog_empty : SimctlData :=
  ⟨[], [], []⟩

/-- A default command oracle the witnesses customize. -/
def base_world : World :=
  { listJson := none
    bootOk := fun _ => true
    createOut := fun _ _ => some "CCCC-NEW\n"
    createTempOut := fun _ _ => some "DDDD-TEMP\n"
    shutdownOk := fun _ => true
    deleteOk := fun _ => true
    listDevicesOut := fun _ => some ""
    openOk := true
    installOk := fun _ _ => true
    environ := [] }

/-- C5 witness: all four acquisition branches exercised on concrete
catalogs and worlds. -/
theorem C5_persistent_acquisition_witness :
    persistent_ios_simulator { base_world with listJson := some catalog_shut } "13.0" none none =
      (Except.ok "AAAA-SHUT", [Cmd.listJson, Cmd.boot "AAAA-SHUT"]) ∧
    persistent_ios_simulator { base_world with listJson := some catalog_booted } "13.0" none none =
      (Except.ok "BBBB-BOOT", [Cmd.listJson]) ∧
    persistent_ios_simulator { base_world with listJson := some catalog_no_devices } "13.0" none none =
      (Except.ok "CCCC-NEW",
        [Cmd.listJson, Cmd.create "iPhone 11" "com.apple.CoreSimulator.SimDeviceType.iPhone-11"]) ∧
    persistent_ios_simulator { base_world with listJson := some catalog_empty } "13.0" none none =
      (Except.error (Err.selectionError "13.0" none none), [Cmd.listJson]) := by
  refine ⟨?_, ?_, ?_, ?_⟩
  · exact (C5_persistent_acquisition _ catalog_shut "13.0" none none rfl).1
      (some ⟨iphone_dt_1.device_type, 0⟩) ⟨shut_raw_device, ⟨iphone_dt_1.device_type, 0⟩⟩
      (by decide) (by decide) (by decide)
  · exact (C5_persistent_acquisition _ catalog_booted "13.0" none none rfl).2.1
      (some ⟨iphone_dt_1.device_type, 0⟩) ⟨booted_raw_device, ⟨iphone_dt_1.device_type, 0⟩⟩
      (by decide) (by decide)
  · exact (C5_persistent_acquisition _ catalog_no_devices "13.0" none none rfl).2.2.1
      ⟨iphone_dt_1.device_type, 0⟩ "CCCC-NEW\n" (by decide) (by decide)
  · exact (C5_persistent_acquisition _ catalog_empty "13.0" none none rfl).2.2.2
      (by decide)

/-- One poll attempt finds a booted line: some line of the listing contains
both the udid and "Booted". -/
def poll_hit (udid out : String) : Bool :=
  (py_split out '\n').any (booted_line udid)

/-- Exhaustion lemma for the polling loop: if every attempt in the window
succeeds but never finds a booted line, the loop consumes all its fuel,
returns `false`, and issues exactly one listing command per attempt. -/
theorem wait_poll_exhaust (w : World) (udid : String) (o : Nat → String) :
    ∀ (fuel i : Nat),
    (∀ j, i ≤ j → j < i + fuel → w.listDevicesOut j = some (o j) ∧ poll_hit udid (o j) = false) →
    wait_poll w udid i fuel = (Except.ok false, List.replicate fuel Cmd.listDevices) := by
  intro fuel
  induction fuel with
  | zero => intro i _; rfl
  | succ n ih =>
    intro i h
    obtain ⟨hout, hmiss⟩ := h i (Nat.le_refl i) (by omega)
    unfold wait_poll
    rw [hout]
    show (if (py_split (o i) '\n').any (booted_line udid) = true
        then (Except.ok true, [Cmd.listDevices])
        else ((wait_poll w udid (i + 1) n).1,
          Cmd.listDevices :: (wait_poll w udid (i + 1) n).2)) =
      (Except.ok false, List.replicate (n + 1) Cmd.listDevices)
    unfold poll_hit at hmiss
    rw [hmiss]
    simp only [Bool.false_eq_true, if_false]
    rw [ih (i + 1) (fun j hj1 hj2 => h j (by omega) (by omega))]
    rfl

/-- Early-success lemma for the polling loop: if attempt `k` (inside the
fuel window) is the first to find a booted line, the loop returns `true`
after exactly `k - i + 1` listing commands. -/
theorem wait_poll_success (w : World) (udid : String) (o : Nat → String) :
    ∀ (fuel i k : Nat), i ≤ k → k < i + fuel →
    (∀ j, i ≤ j → j < k → w.listDevicesOut j = some (o j) ∧ poll_hit udid (o j) = false) →
    w.listDevicesOut k = some (o k) → poll_hit udid (o k) = true →
    wait_poll w udid i fuel = (Except.ok true, List.replicate (k - i + 1) Cmd.listDevices) := by
  intro fuel
  induction fuel with
  | zero => intro i k h1 h2; omega
  | succ n ih =>
    intro i k h1 h2 hpre hk hhit
    unfold wait_poll
    by_cases hik : i = k
    · subst hik
      rw [hk]
      show (if (py_split (o i) '\n').any (booted_line udid) = true
          then (Except.ok true, [Cmd.listDevices])
          else ((wait_poll w udid (i + 1) n).1,
            Cmd.listDevices :: (wait_poll w udid (i + 1) n).2)) =
        (Except.ok true, List.replicate (i - i + 1) Cmd.listDevices)
      unfold poll_hit at hhit
      rw [hhit]
      simp
    · obtain ⟨hout, hmiss⟩ := hpre i (Nat.le_refl i) (by omega)
      rw [hout]
      show (if (py_split (o i) '\n').any (booted_line udid) = true
          then (Except.ok true, [Cmd.listDevices])
          else ((wait_poll w udid (i + 1) n).1,
            Cmd.listDevices :: (wait_poll w udid (i + 1) n).2)) =
        (Except.ok true, List.replicate (k - i + 1) Cmd.listDevices)
      unfold poll_hit at hmiss
      rw [hmiss]
      simp only [Bool.false_eq_true, if_false]
      rw [ih (i + 1) k (by omega) (by omega) (fun j hj1 hj2 => hpre j (by omega) hj2) hk hhit]
      have : k - i + 1 = (k - (i + 1) + 1) + 1 := by omega
      rw [this]
      rfl

/-- C4: after the simulator app is launched, the wait polls the device
listing at most 60 times, succeeding as soon as some listing line contains
both the target identifier and "Booted" (after exactly k+1 polls when
attempt k is the first hit); if no poll ever finds such a line, the wait
returns failure after exactly 60 listing commands — not more, not fewer —
and `boot_simulator` raises that failure as a fatal error. -/
theorem C4_boot_wait :
    ∀ (w : World) (udid : String) (o : Nat → String),
    (∀ i, i < 60 → w.listDevicesOut i = some (o i)) →
    (∀ k, k < 60 → poll_hit udid (o k) = true →
      (∀ j, j < k → poll_hit udid (o j) = false) →
      wait_for_sim_to_boot w udid =
        (Except.ok true, List.replicate (k + 1) Cmd.listDevices)) ∧
    ((∀ j, j < 60 → poll_hit udid (o j) = false) →
      wait_for_sim_to_boot w udid =
        (Except.ok false, List.replicate 60 Cmd.listDevices) ∧
      (w.openOk = true →
        boot_simulator w udid =
          (Except.error (Err.bootTimeoutError udid),
            Cmd.openSim udid :: List.replicate 60 Cmd.listDevices))) := by
  intro w udid o hout
  constructor
  · intro k hk hhit hpre
    unfold wait_for_sim_to_boot
    have := wait_poll_success w udid o 60 0 k (Nat.zero_le k) (by omega)
      (fun j hj1 hj2 => ⟨hout j (by omega), hpre j hj2⟩) (hout k hk) hhit
    simpa using this
  · intro hmiss
    have hwait : wait_for_sim_to_boot w udid =
        (Except.ok false, List.replicate 60 Cmd.listDevices) := by
      unfold wait_for_sim_to_boot
      exact wait_poll_exhaust w udid o 60 0
        (fun j hj1 hj2 => ⟨hout j (by omega), hmiss j (by omega)⟩)
    refine ⟨hwait, ?_⟩
    intro hopen
    unfold boot_simulator
    rw [hopen, hwait]
    simp

/-- C4 witness: a listing source that never reports "Booted" makes the wait
fail after exactly 60 polls and `boot_simulator` raise; one whose first
listing reports the udid as Booted succeeds after exactly one poll. -/
theorem C4_boot_wait_witness :
    (wait_for_sim_to_boot base_world "AAAA-SHUT" =
        (Except.ok false, List.replicate 60 Cmd.listDevices) ∧
      (base_world.openOk = true →
        boot_simulator base_world "AAAA-SHUT" =
          (Except.error (Err.bootTimeoutError "AAAA-SHUT"),
            Cmd.openSim "AAAA-SHUT" :: List.replicate 60 Cmd.listDevices))) ∧
    wait_for_sim_to_boot
        { base_world with listDevicesOut := fun _ => some "AAAA-SHUT (Booted)" }
        "AAAA-SHUT" =
      (Except.ok true, List.replicate (0 + 1) Cmd.listDevices) :=
  ⟨(C4_boot_wait base_world "AAAA-SHUT" (fun _ => "") (fun i _ => rfl)).2
      (fun j _ => by decide),
   (C4_boot_wait { base_world with listDevicesOut := fun _ => some "AAAA-SHUT (Booted)" }
      "AAAA-SHUT" (fun _ => "AAAA-SHUT (Booted)") (fun i _ => rfl)).1
      0 (by decide) (by decide) (fun j hj => absurd hj (Nat.not_lt_zero j))⟩

/-- C3: once the ephemeral scope's create succeeded, every exit of the
scoped unit of work — normal or failing — issues shutdown then delete
against the created instance exactly once each (provided the consumer does
not itself issue them); the result ignores the shutdown outcome entirely
(best-effort), while a delete failure replaces the consumer's outcome and
propagates. -/
theorem C3_teardown :
    ∀ (w : World) (device version : String)
      (body : String → Except Err Unit × List Cmd) (out : String),
    w.createTempOut device
      ("com.apple.CoreSimulator.SimRuntime.iOS-" ++ py_replace_dot_dash version) = some out →
    ((body (py_rstrip out)).2.count (Cmd.shutdown (py_rstrip out)) = 0 ∧
      (body (py_rstrip out)).2.count (Cmd.delete (py_rstrip out)) = 0) →
    (temporary_ios_simulator w device version body).2 =
      Cmd.createTemp "TestDevice" device
          ("com.apple.CoreSimulator.SimRuntime.iOS-" ++ py_replace_dot_dash version) ::
        Cmd.pkill :: (body (py_rstrip out)).2 ++
        [Cmd.shutdown (py_rstrip out), Cmd.delete (py_rstrip out)] ∧
    (temporary_ios_simulator w device version body).2.count (Cmd.shutdown (py_rstrip out)) = 1 ∧
    (temporary_ios_simulator w device version body).2.count (Cmd.delete (py_rstrip out)) = 1 ∧
    (w.deleteOk (py_rstrip out) = true →
      (temporary_ios_simulator w device version body).1 = (body (py_rstrip out)).1) ∧
    (w.deleteOk (py_rstrip out) = false →
      (temporary_ios_simulator w device version body).1 =
        Except.error (Err.processError "simctl delete")) ∧
    (∀ g : String → Bool,
      temporary_ios_simulator { w with shutdownOk := g } device version body =
        temporary_ios_simulator w device version body) := by
  intro w device version body out hcr hbody
  have htr : (temporary_ios_simulator w device version body).2 =
      Cmd.createTemp "TestDevice" device
          ("com.apple.CoreSimulator.SimRuntime.iOS-" ++ py_replace_dot_dash version) ::
        Cmd.pkill :: (body (py_rstrip out)).2 ++
        [Cmd.shutdown (py_rstrip out), Cmd.delete (py_rstrip out)] := by
    simp [temporary_ios_simulator, hcr]
  refine ⟨htr, ?_, ?_, ?_, ?_, ?_⟩
  · rw [htr]
    simp [List.count_cons, List.count_append, hbody.1]
  · rw [htr]
    simp [List.count_cons, List.count_append, hbody.2]
  · intro hdel
    simp [temporary_ios_simulator, hcr, hdel]
  · intro hdel
    simp [temporary_ios_simulator, hcr, hdel]
  · intro g
    simp [temporary_ios_simulator, hcr]

/-- C3 witness: a failing consumer on a concrete world still gets exactly
one shutdown and one delete, in that order, and its failure is returned
once delete succeeds. -/
theorem C3_teardown_witness :
    (temporary_ios_simulator base_world "iPhone 11" "13.2"
        (fun _ => (Except.error Err.consumerError, []))).2 =
      Cmd.createTemp "TestDevice" "iPhone 11"
          ("com.apple.CoreSimulator.SimRuntime.iOS-" ++ py_replace_dot_dash "13.2") ::
        Cmd.pkill :: [] ++ [Cmd.shutdown "DDDD-TEMP", Cmd.delete "DDDD-TEMP"] ∧
    (temporary_ios_simulator base_world "iPhone 11" "13.2"
        (fun _ => (Except.error Err.consumerError, []))).2.count (Cmd.shutdown "DDDD-TEMP") = 1 ∧
    (temporary_ios_simulator base_world "iPhone 11" "13.2"
        (fun _ => (Except.error Err.consumerError, []))).2.count (Cmd.delete "DDDD-TEMP") = 1 ∧
    (temporary_ios_simulator base_world "iPhone 11" "13.2"
        (fun _ => (Except.error Err.consumerError, []))).1 = Except.error Err.consumerError := by
  have h := C3_teardown base_world "iPhone 11" "13.2"
    (fun _ => (Except.error Err.consumerError, [])) "DDDD-TEMP\n" rfl (by decide)
  have hr : py_rstrip "DDDD-TEMP\n" = "DDDD-TEMP" := by decide
  rw [hr] at h
  exact ⟨h.1, h.2.1, h.2.2.1, h.2.2.2.1 rfl⟩

/-- Membership in a Python-dict assignment: the entry is the assigned one,
or an entry of the original dictionary under a different key. -/
theorem dict_set_mem (d : List (String × String)) (k0 v0 key val : String) :
    (key, val) ∈ dict_set d k0 v0 ↔
      ((key = k0 ∧ val = v0) ∨ (key ≠ k0 ∧ (key, val) ∈ d)) := by
  unfold dict_set
  by_cases hany : d.any (fun p => p.1 == k0) = true
  · rw [if_pos hany]
    constructor
    · intro hmem
      obtain ⟨p, hp, hgp⟩ := List.mem_map.mp hmem
      by_cases hpk : (p.1 == k0) = true
      · rw [if_pos hpk] at hgp
        left
        exact ⟨(Prod.mk.injEq _ _ _ _ ▸ hgp.symm).1, (Prod.mk.injEq _ _ _ _ ▸ hgp.symm).2⟩
      · rw [if_neg hpk] at hgp
        right
        refine ⟨?_, hgp ▸ hp⟩
        intro hkey
        apply hpk
        rw [hgp]
        exact beq_iff_eq.mpr hkey
    · intro h
      rcases h with ⟨rfl, rfl⟩ | ⟨hne, hmem⟩
      · obtain ⟨p, hp, hpk⟩ := List.any_eq_true.mp hany
        exact List.mem_map.mpr ⟨p, hp, by rw [if_pos hpk]⟩
      · refine List.mem_map.mpr ⟨(key, val), hmem, ?_⟩
        rw [if_neg]
        simp [hne]
  · rw [if_neg hany]
    constructor
    · intro hmem
      rcases List.mem_append.mp hmem with hd | hs
      · right
        refine ⟨?_, hd⟩
        intro hkey
        apply hany
        exact List.any_eq_true.mpr ⟨(key, val), hd, beq_iff_eq.mpr hkey⟩
      · left
        have := List.mem_singleton.mp hs
        exact ⟨(Prod.mk.injEq _ _ _ _ ▸ this).1, (Prod.mk.injEq _ _ _ _ ▸ this).2⟩
    · intro h
      rcases h with ⟨rfl, rfl⟩ | ⟨_, hmem⟩
      · exact List.mem_append.mpr (Or.inr (List.mem_singleton.mpr rfl))
      · exact List.mem_append.mpr (Or.inl hmem)

/-- Membership in the translated environment list is exactly
`translated_entry`. -/
theorem translation_mem (environ : List (String × String)) (key val : String) :
    ((key, val) ∈ environ.filterMap (fun p =>
        if str_starts_with p.1 "IOS_" then
          some ("SIMCTL_CHILD_" ++ str_drop p.1 4, p.2)
        else none)) ↔
      translated_entry environ key val := by
  rw [List.mem_filterMap]
  constructor
  · rintro ⟨p, hp, hf⟩
    by_cases hs : str_starts_with p.1 "IOS_" = true
    · rw [if_pos hs] at hf
      have h1 : "SIMCTL_CHILD_" ++ str_drop p.1 4 = key := (Prod.mk.injEq _ _ _ _ ▸ Option.some_inj.mp hf).1
      have h2 : p.2 = val := (Prod.mk.injEq _ _ _ _ ▸ Option.some_inj.mp hf).2
      refine ⟨p.1, ?_, hs, h1.symm⟩
      rw [← h2]
      exact hp
    · rw [if_neg hs] at hf
      cases hf
  · rintro ⟨k, hk, hs, rfl⟩
    exact ⟨(k, val), hk, by rw [if_pos hs]⟩

/-- C9 (counterexample): on an empty host environment the claim predicts an
empty dictionary, but the code adds the unconditional-looking
`SIMCTL_CHILD_OS_ACTIVITY_DT_MODE=enable` entry whenever
`IDE_DISABLED_OS_ACTIVITY_DT_MODE` is not set — so the result is not
exactly the translated "IOS_" variables. -/
theorem C9_counterexample :
    simctl_launch_environ [] = [("SIMCTL_CHILD_OS_ACTIVITY_DT_MODE", "enable")] ∧
    ¬ spec_environ_exact [] (simctl_launch_environ []) := by
  refine ⟨by decide, ?_⟩
  intro h
  have hm : ("SIMCTL_CHILD_OS_ACTIVITY_DT_MODE", "enable") ∈ simctl_launch_environ [] := by
    decide
  obtain ⟨k, hk, _, _⟩ := (h _ _).mp hm
  exact absurd hk (List.not_mem_nil _)

/-- C9 (amended: the translated "IOS_" entries are exactly as claimed, and
additionally, when `IDE_DISABLED_OS_ACTIVITY_DT_MODE` is absent from the
host environment, the entry `SIMCTL_CHILD_OS_ACTIVITY_DT_MODE=enable` is
set, overriding any translated entry of that name): membership
characterization of the launch environment, plus the guarantee that the
dictionary passed to the launch command is exactly this function's
result. -/
theorem C9_launch_environ :
    ∀ (environ : List (String × String)) (key val : String),
    (environ.any (fun p => p.1 == "IDE_DISABLED_OS_ACTIVITY_DT_MODE") = true →
      ((key, val) ∈ simctl_launch_environ environ ↔ translated_entry environ key val)) ∧
    (environ.any (fun p => p.1 == "IDE_DISABLED_OS_ACTIVITY_DT_MODE") = false →
      ((key, val) ∈ simctl_launch_environ environ ↔
        ((key = "SIMCTL_CHILD_OS_ACTIVITY_DT_MODE" ∧ val = "enable") ∨
         (key ≠ "SIMCTL_CHILD_OS_ACTIVITY_DT_MODE" ∧ translated_entry environ key val)))) ∧
    (∀ (w : World) (udid app_path bundle : String) (tr : List Cmd),
      run_app_in_simulator w udid app_path bundle = (Except.ok (), tr) →
      Cmd.launch udid bundle (simctl_launch_environ w.environ) ∈ tr) := by
  intro environ key val
  refine ⟨?_, ?_, ?_⟩
  · intro hide
    unfold simctl_launch_environ
    rw [if_pos hide]
    exact translation_mem environ key val
  · intro hide
    unfold simctl_launch_environ
    rw [if_neg (by rw [hide]; intro hc; cases hc)]
    rw [dict_set_mem, translation_mem]
  · intro w udid app_path bundle tr hrun
    unfold run_app_in_simulator at hrun
    rcases hb : boot_simulator w udid with ⟨res, btr⟩
    rw [hb] at hrun
    cases res with
    | error e => cases hrun
    | ok u =>
      have hrun' : (if w.installOk udid app_path = true then
          (Except.ok (), btr ++ [Cmd.install udid app_path,
            Cmd.launch udid bundle (simctl_launch_environ w.environ)])
        else (Except.error (Err.processError "simctl install"),
          btr ++ [Cmd.install udid app_path])) = (Except.ok (), tr) := hrun
      by_cases hi : w.installOk udid app_path = true
      · rw [if_pos hi] at hrun'
        have htr : tr = btr ++ [Cmd.install udid app_path,
            Cmd.launch udid bundle (simctl_launch_environ w.environ)] :=
          ((Prod.mk.injEq _ _ _ _ ▸ hrun').2).symm
        rw [htr]
        simp
      · rw [if_neg hi] at hrun'
        cases hrun' 

/-- C9 witness: the characterization applied on a concrete two-variable
host environment without the IDE marker — the translated entry is present
via clause two. -/
theorem C9_launch_environ_witness :
    ("SIMCTL_CHILD_FOO", "1") ∈ simctl_launch_environ [("IOS_FOO", "1"), ("OTHER", "2")] :=
  ((C9_launch_environ [("IOS_FOO", "1"), ("OTHER", "2")] "SIMCTL_CHILD_FOO" "1").2.1
      (by decide)).mpr
    (Or.inr ⟨by decide, "IOS_FOO", by decide, by decide, by decide⟩)

/-- C10: the top-level context manager yields exactly the persistent
acquisition's outcome for every input — including when both a device name
and an OS version are supplied — and the persistent path can only ever
issue listing, boot and create commands, so the ephemeral path's create /
pkill / shutdown / delete commands are never issued by acquisition. -/
theorem C10_top_level_persistent :
    ∀ (w : World) (minimum_os : String) (sd sv : Option String)
      (body : String → Except Err Unit × List Cmd),
    (∀ udid tr, persistent_ios_simulator w minimum_os sd sv = (Except.ok udid, tr) →
      ios_simulator w minimum_os sd sv body = ((body udid).1, tr ++ (body udid).2)) ∧
    (∀ e tr, persistent_ios_simulator w minimum_os sd sv = (Except.error e, tr) →
      ios_simulator w minimum_os sd sv body = (Except.error e, tr)) ∧
    (∀ c, c ∈ (persistent_ios_simulator w minimum_os sd sv).2 →
      c = Cmd.listJson ∨ (∃ u, c = Cmd.boot u) ∨ (∃ n i, c = Cmd.create n i)) := by
  intro w minimum_os sd sv body
  refine ⟨?_, ?_, ?_⟩
  · intro udid tr hp
    unfold ios_simulator
    rw [hp]
  · intro e tr hp
    unfold ios_simulator
    rw [hp]
  · intro c hc
    unfold persistent_ios_simulator discover_best_compatible_simulator at hc
    cases hlj : w.listJson with
    | none =>
      rw [hlj] at hc
      simp at hc
      simp [hc]
    | some data =>
      simp only [hlj] at hc
      cases hd : discover_pure data minimum_os sd sv with
      | error e =>
        rw [hd] at hc
        simp at hc
        simp [hc]
      | ok pair =>
        rw [hd] at hc
        rcases pair with ⟨dto, devo⟩
        cases devo with
        | some dev =>
          by_cases hs : dev.is_shutdown = true
          · by_cases hb : w.bootOk dev.device.udid = true
            · simp [hs, hb] at hc
              rcases hc with hc | hc
              · simp [hc]
              · exact Or.inr (Or.inl ⟨_, hc⟩)
            · simp [hs, hb] at hc
              rcases hc with hc | hc
              · simp [hc]
              · exact Or.inr (Or.inl ⟨_, hc⟩)
          · simp [hs] at hc
            simp [hc]
        | none =>
          cases dto with
          | some dt =>
            cases hcr : w.createOut dt.device_type.name dt.device_type.identifier with
            | some out =>
              simp [hcr] at hc
              rcases hc with hc | hc
              · simp [hc]
              · exact Or.inr (Or.inr ⟨_, _, hc⟩)
            | none =>
              simp [hcr] at hc
              rcases hc with hc | hc
              · simp [hc]
              · exact Or.inr (Or.inr ⟨_, _, hc⟩)
          | none =>
            simp at hc
            simp [hc]

/-- C10 witness: on the concrete booted-instance world, with both filters
supplied, the top level returns exactly the persistent result composed with
the consumer, and the acquisition trace is listing/boot/create only. -/
theorem C10_top_level_persistent_witness :
    ios_simulator { base_world with listJson := some catalog_booted } "13.0"
        (some "iPhone") (some "13.0") (fun u => (Except.ok (), [Cmd.openSim u])) =
      (Except.ok (), [Cmd.listJson] ++ [Cmd.openSim "BBBB-BOOT"]) ∧
    (Cmd.listJson ∈
        (persistent_ios_simulator { base_world with listJson := some catalog_booted } "13.0"
          (some "iPhone") (some "13.0")).2 →
      Cmd.listJson = Cmd.listJson ∨ (∃ u, Cmd.listJson = Cmd.boot u) ∨
        (∃ n i, Cmd.listJson = Cmd.create n i)) :=
  ⟨(C10_top_level_persistent { base_world with listJson := some catalog_booted } "13.0"
      (some "iPhone") (some "13.0") (fun u => (Except.ok (), [Cmd.openSim u]))).1
      "BBBB-BOOT" [Cmd.listJson] (by decide),
   fun h => (C10_top_level_persistent { base_world with listJson := some catalog_booted } "13.0"
      (some "iPhone") (some "13.0") (fun u => (Except.ok (), [Cmd.openSim u]))).2.2
      Cmd.listJson h⟩
